import Mathlib

/-!
# Agrilink marketplace escrow canister — shallow embedding and verification

This file embeds the Rust canister in
`src/src/icp_rust_boilerplate_backend/src/lib.rs` (an ICP canister built on
`ic-stable-structures`) into Lean 4 and proves properties of its operations.

Modelling decisions, all taken from the source:

* `u64` values are modelled as `Nat`; the canister is compiled in the release
  profile, where Rust's `+` / `+=` on `u64` wrap modulo `2^64`, so the two
  addition sites (`add_to_escrow`'s `escrow_balance += amount` and the id
  counter's `current_value + 1` in `add_product`) are modelled with an
  explicit `% 2^64`.  The subtraction in `withdraw_from_escrow` is guarded by
  `escrow_balance >= amount`, so `Nat` subtraction is exact there.
* The thread-local stable structures (`ID_COUNTER`, `FARMERS_STORAGE`,
  `PRODUCTS_STORAGE`) become one explicit `State` record threaded through the
  operations; a `StableBTreeMap` becomes a function `Nat → Option α` with
  pointwise insert (insert is an upsert, and the maps have no delete).
* `ic_stable_structures::Cell::set` writes the new value and returns the
  *previous* one (`mem::replace`), so in `add_product` the id handed out is
  the counter value *before* the increment: the very first id issued is `0`.
* Rust `Result<T, String>` becomes `RustResult T`; every error string is kept
  verbatim.
* `#[ic_cdk::query]` accessors are read-only, so they are embedded as pure
  functions `State → RustResult α` with no state output.
-/

/-- `2^64`, the number of values of Rust's `u64`. -/
def U64LIMIT : Nat := 2 ^ 64

/-- A `StableBTreeMap` keyed by `u64`: total lookup into `Option`. -/
def Store (α : Type) : Type := Nat → Option α

/-- The empty map. -/
def Store.empty {α : Type} : Store α := fun _ => none

/-- Lookup (`StableBTreeMap::get`). -/
def Store.get {α : Type} (m : Store α) (k : Nat) : Option α := m k

/-- Upsert (`StableBTreeMap::insert`); there is no delete operation. -/
def Store.insert {α : Type} (m : Store α) (k : Nat) (v : α) : Store α :=
  fun j => if j = k then some v else m j

/-- The `Farmer` struct: one listing and its escrow/dispute state. -/
structure Farmer where
  id : Nat
  address : String
  name : String
  bio : String
  category : String
  price : Nat
  escrow_balance : Nat
  dispute_status : Bool
  rating : Nat
  product_status : String
  consumer_address : Option String
  is_sold : Bool
deriving Repr, DecidableEq

/-- The `ProductRecord` struct: the archived settled-sale record. -/
structure ProductRecord where
  id : Nat
  farmer_address : String
deriving Repr, DecidableEq

/-- The `FarmerPayload` struct passed to `add_product`. -/
structure FarmerPayload where
  address : String
  name : String
  bio : String
  category : String
  price : Nat
  product_status : String
deriving Repr, DecidableEq

/-- The `ProductBidPayload` struct passed to `product_bid`. -/
structure ProductBidPayload where
  farmer_id : Nat
  consumer_address : String
deriving Repr, DecidableEq

/-- The `MarkProductSoldPayload` struct passed to `mark_product_sold`. -/
structure MarkProductSoldPayload where
  farmer_id : Nat
  consumer_address : String
deriving Repr, DecidableEq

/-- The `WithdrawFromEscrowPayload` struct passed to `withdraw_from_escrow`. -/
structure WithdrawFromEscrowPayload where
  farmer_id : Nat
  amount : Nat
deriving Repr, DecidableEq

/-- Rust's `Result<α, String>` as returned by every canister method. -/
inductive RustResult (α : Type) where
  | ok : α → RustResult α
  | err : String → RustResult α
deriving Repr, DecidableEq

/-- The canister's persistent state: the `ID_COUNTER` cell, the
`FARMERS_STORAGE` map (Listing Store) and the `PRODUCTS_STORAGE` map
(Archive Store). -/
structure State where
  id_counter : Nat
  farmers : Store Farmer
  products : Store ProductRecord

/-- The state of a canister whose stable memory is fresh: counter `0`,
both maps empty. -/
def State.fresh : State :=
  { id_counter := 0, farmers := Store.empty, products := Store.empty }

/-- `get_product_description`: query returning `farmer.bio`. -/
def get_product_description (farmer_id : Nat) (s : State) : RustResult String :=
  match s.farmers.get farmer_id with
  | none => .err "Farmer not found"
  | some farmer => .ok farmer.bio

/-- `get_product_price`: query returning `farmer.price`. -/
def get_product_price (farmer_id : Nat) (s : State) : RustResult Nat :=
  match s.farmers.get farmer_id with
  | none => .err "Farmer not found"
  | some farmer => .ok farmer.price

/-- `get_product_status`: query returning `farmer.product_status`. -/
def get_product_status (farmer_id : Nat) (s : State) : RustResult String :=
  match s.farmers.get farmer_id with
  | none => .err "Farmer not found"
  | some farmer => .ok farmer.product_status

/-- The validation guard at the top of `add_product`: any empty text field
rejects the payload. -/
def FarmerPayload.rejected (payload : FarmerPayload) : Bool :=
  payload.address.isEmpty || payload.name.isEmpty || payload.bio.isEmpty
    || payload.category.isEmpty || payload.product_status.isEmpty

/-- The `Farmer` value built by `add_product` from the payload and the
allocated id. -/
def Farmer.fromPayload (payload : FarmerPayload) (id : Nat) : Farmer :=
  { id := id
    address := payload.address
    name := payload.name
    bio := payload.bio
    category := payload.category
    price := payload.price
    escrow_balance := 0
    dispute_status := false
    rating := 0
    product_status := payload.product_status
    consumer_address := none
    is_sold := false }

/-- `add_product`: validates the payload, allocates an id from `ID_COUNTER`
(`Cell::set(current + 1)` returns the previous value, so the id handed out
is the pre-increment counter; the `+ 1` is an unchecked `u64` addition and
wraps), and inserts the initialized listing. -/
def add_product (payload : FarmerPayload) (s : State) :
    RustResult Farmer × State :=
  if payload.rejected then
    (.err "All fields must be provided and non-empty", s)
  else
    let current_value := s.id_counter
    let id := current_value
    let farmer := Farmer.fromPayload payload id
    (.ok farmer,
      { s with
        id_counter := (current_value + 1) % U64LIMIT
        farmers := s.farmers.insert id farmer })

/-- `product_bid`: validates the consumer address, then sets it (and the
status text) when no bid is present yet. -/
def product_bid (payload : ProductBidPayload) (s : State) :
    RustResult Unit × State :=
  if payload.consumer_address.isEmpty then
    (.err "Consumer address must be provided and non-empty", s)
  else
    match s.farmers.get payload.farmer_id with
    | none => (.err "Farmer not found", s)
    | some farmer =>
      match farmer.consumer_address with
      | none =>
        let farmer := { farmer with
          consumer_address := some payload.consumer_address
          product_status := "Bid Placed" }
        (.ok (), { s with farmers := s.farmers.insert payload.farmer_id farmer })
      | some _ => (.err "Product already has a bid placed", s)

/-- `accept_bid`: requires a pending bid, then updates the status text. -/
def accept_bid (farmer_id : Nat) (s : State) : RustResult Unit × State :=
  match s.farmers.get farmer_id with
  | none => (.err "Farmer not found", s)
  | some farmer =>
    match farmer.consumer_address with
    | some _ =>
      let farmer := { farmer with product_status := "Bid Accepted" }
      (.ok (), { s with farmers := s.farmers.insert farmer_id farmer })
    | none => (.err "No bid placed on the product", s)

/-- `mark_product_sold`: requires a pending bid on the stored listing, then
sets `is_sold`; the payload's `consumer_address` field is never read. -/
def mark_product_sold (payload : MarkProductSoldPayload) (s : State) :
    RustResult Unit × State :=
  match s.farmers.get payload.farmer_id with
  | none => (.err "Farmer not found", s)
  | some farmer =>
    match farmer.consumer_address with
    | some _ =>
      let farmer := { farmer with
        is_sold := true
        product_status := "Product Sold" }
      (.ok (), { s with farmers := s.farmers.insert payload.farmer_id farmer })
    | none => (.err "No consumer has placed a bid on the product", s)

/-- `dispute_product`: no guard; sets `dispute_status`. -/
def dispute_product (farmer_id : Nat) (s : State) : RustResult Unit × State :=
  match s.farmers.get farmer_id with
  | none => (.err "Farmer not found", s)
  | some farmer =>
    let farmer := { farmer with
      dispute_status := true
      product_status := "Dispute Raised" }
    (.ok (), { s with farmers := s.farmers.insert farmer_id farmer })

/-- `resolve_dispute`: requires an active dispute, clears it, and records the
resolution direction in the status text. -/
def resolve_dispute (farmer_id : Nat) (resolution : Bool) (s : State) :
    RustResult Unit × State :=
  match s.farmers.get farmer_id with
  | none => (.err "Farmer not found", s)
  | some farmer =>
    if !farmer.dispute_status then
      (.err "No active dispute to resolve", s)
    else
      let farmer := { farmer with
        dispute_status := false
        product_status :=
          if resolution then "Dispute Resolved - Funds to Farmer"
          else "Dispute Resolved - Funds to Consumer" }
      (.ok (), { s with farmers := s.farmers.insert farmer_id farmer })

/-- `release_payment`: requires `is_sold && !dispute_status`; zeroes the
escrow balance, archives a `ProductRecord` keyed by the listing's `id`
field, and writes the listing back. -/
def release_payment (farmer_id : Nat) (s : State) : RustResult Unit × State :=
  match s.farmers.get farmer_id with
  | none => (.err "Farmer not found", s)
  | some farmer =>
    if farmer.is_sold && !farmer.dispute_status then
      let farmer := { farmer with escrow_balance := 0 }
      let product_record : ProductRecord :=
        { id := farmer.id, farmer_address := farmer.address }
      (.ok (),
        { s with
          products := s.products.insert farmer.id product_record
          farmers := s.farmers.insert farmer_id farmer })
    else
      (.err "Product is not sold or has an unresolved dispute", s)

/-- `add_to_escrow`: no guard; `escrow_balance += amount` is an unchecked
`u64` addition, which wraps modulo `2^64` in the release profile. -/
def add_to_escrow (farmer_id : Nat) (amount : Nat) (s : State) :
    RustResult Unit × State :=
  match s.farmers.get farmer_id with
  | none => (.err "Farmer not found", s)
  | some farmer =>
    let farmer := { farmer with
      escrow_balance := (farmer.escrow_balance + amount) % U64LIMIT }
    (.ok (), { s with farmers := s.farmers.insert farmer_id farmer })

/-- `withdraw_from_escrow`: requires `escrow_balance >= amount`, then
subtracts exactly `amount`. -/
def withdraw_from_escrow (payload : WithdrawFromEscrowPayload) (s : State) :
    RustResult Unit × State :=
  match s.farmers.get payload.farmer_id with
  | none => (.err "Farmer not found", s)
  | some farmer =>
    if payload.amount ≤ farmer.escrow_balance then
      let farmer := { farmer with
        escrow_balance := farmer.escrow_balance - payload.amount }
      (.ok (), { s with farmers := s.farmers.insert payload.farmer_id farmer })
    else
      (.err "Insufficient funds in escrow", s)

/-- `update_product_category`: overwrites `category`. -/
def update_product_category (farmer_id : Nat) (category : String) (s : State) :
    RustResult Unit × State :=
  match s.farmers.get farmer_id with
  | none => (.err "Farmer not found", s)
  | some farmer =>
    let farmer := { farmer with category := category }
    (.ok (), { s with farmers := s.farmers.insert farmer_id farmer })

/-- `update_product_description`: overwrites `bio`. -/
def update_product_description (farmer_id : Nat) (bio : String) (s : State) :
    RustResult Unit × State :=
  match s.farmers.get farmer_id with
  | none => (.err "Farmer not found", s)
  | some farmer =>
    let farmer := { farmer with bio := bio }
    (.ok (), { s with farmers := s.farmers.insert farmer_id farmer })

/-- `update_product_price`: overwrites `price`. -/
def update_product_price (farmer_id : Nat) (price : Nat) (s : State) :
    RustResult Unit × State :=
  match s.farmers.get farmer_id with
  | none => (.err "Farmer not found", s)
  | some farmer =>
    let farmer := { farmer with price := price }
    (.ok (), { s with farmers := s.farmers.insert farmer_id farmer })

/-- `update_product_status`: overwrites `product_status`. -/
def update_product_status (farmer_id : Nat) (status : String) (s : State) :
    RustResult Unit × State :=
  match s.farmers.get farmer_id with
  | none => (.err "Farmer not found", s)
  | some farmer =>
    let farmer := { farmer with product_status := status }
    (.ok (), { s with farmers := s.farmers.insert farmer_id farmer })

/-- `rate_farmer`: overwrites `rating`. -/
def rate_farmer (farmer_id : Nat) (rating : Nat) (s : State) :
    RustResult Unit × State :=
  match s.farmers.get farmer_id with
  | none => (.err "Farmer not found", s)
  | some farmer =>
    let farmer := { farmer with rating := rating }
    (.ok (), { s with farmers := s.farmers.insert farmer_id farmer })

/-! ## Derived observations and basic map lemmas -/

/-- The escrow balance stored for `farmer_id` (`0` when no listing exists). -/
def escrowBalanceAt (farmer_id : Nat) (s : State) : Nat :=
  match s.farmers.get farmer_id with
  | none => 0
  | some farmer => farmer.escrow_balance

/-- The consumer address stored for `farmer_id` (`none` when no listing
exists or no bid was placed). -/
def consumerAddressAt (farmer_id : Nat) (s : State) : Option String :=
  match s.farmers.get farmer_id with
  | none => none
  | some farmer => farmer.consumer_address

/-! ## Sequences of escrow operations (for the escrow-balance invariant)

The invariant quantifies over arbitrary sequences of `add_to_escrow` /
`withdraw_from_escrow` calls addressed to one listing. -/

/-- One escrow call addressed to a fixed listing: `add_to_escrow id amount`
or `withdraw_from_escrow { farmer_id := id, amount }`. -/
inductive EscrowOp where
  | add : Nat → EscrowOp
  | withdraw : Nat → EscrowOp
deriving Repr, DecidableEq

/-- The state after one escrow call addressed to `farmer_id`. -/
def applyEscrowOp (farmer_id : Nat) (op : EscrowOp) (s : State) : State :=
  match op with
  | .add amount => (add_to_escrow farmer_id amount s).2
  | .withdraw amount => (withdraw_from_escrow ⟨farmer_id, amount⟩ s).2

/-- The state after a sequence of escrow calls addressed to `farmer_id`. -/
def runEscrowOps (farmer_id : Nat) (ops : List EscrowOp) (s : State) : State :=
  match ops with
  | [] => s
  | op :: rest => runEscrowOps farmer_id rest (applyEscrowOp farmer_id op s)

/-- The mathematical (unwrapped) sum of the amounts of the `add_to_escrow`
calls in the sequence that return `Ok`. -/
def okAddSum (farmer_id : Nat) (ops : List EscrowOp) (s : State) : Nat :=
  match ops with
  | [] => 0
  | op :: rest =>
    (match op with
     | .add amount =>
       if (add_to_escrow farmer_id amount s).1 = RustResult.ok () then amount
       else 0
     | .withdraw _ => 0)
      + okAddSum farmer_id rest (applyEscrowOp farmer_id op s)

/-! ## Sequences of `add_product` calls (for the identifier allocator) -/

/-- The ids handed out by a sequence of `add_product` calls, in call order,
keeping only the successful calls. -/
def issuedIds (payloads : List FarmerPayload) (s : State) : List Nat :=
  match payloads with
  | [] => []
  | p :: rest =>
    match (add_product p s).1 with
    | .ok farmer => farmer.id :: issuedIds rest (add_product p s).2
    | .err _ => issuedIds rest (add_product p s).2

/-- The number of payloads in the list that pass `add_product`'s validation
(success of `add_product` depends only on the payload). -/
def okAllocCount (payloads : List FarmerPayload) : Nat :=
  (payloads.filter (fun p => !p.rejected)).length

/-! ## A uniform wrapper over the whole operation set (for atomicity) -/

/-- The value carried by a successful call of any canister method. -/
inductive OpVal where
  | unitV : OpVal
  | farmerV : Farmer → OpVal
  | strV : String → OpVal
  | natV : Nat → OpVal
deriving Repr, DecidableEq

/-- Injects a typed method result into the uniform result type. -/
def RustResult.mapVal {α : Type} (f : α → OpVal) :
    RustResult α → RustResult OpVal
  | .ok a => .ok (f a)
  | .err e => .err e

/-- One invocation of any method of the canister, with its arguments. -/
inductive Op where
  | addProduct : FarmerPayload → Op
  | productBid : ProductBidPayload → Op
  | acceptBid : Nat → Op
  | markProductSold : MarkProductSoldPayload → Op
  | disputeProduct : Nat → Op
  | resolveDispute : Nat → Bool → Op
  | releasePayment : Nat → Op
  | addToEscrow : Nat → Nat → Op
  | withdrawFromEscrow : WithdrawFromEscrowPayload → Op
  | updateProductCategory : Nat → String → Op
  | updateProductDescription : Nat → String → Op
  | updateProductPrice : Nat → Nat → Op
  | updateProductStatus : Nat → String → Op
  | rateFarmer : Nat → Nat → Op
  | getProductDescription : Nat → Op
  | getProductPrice : Nat → Op
  | getProductStatus : Nat → Op
deriving Repr, DecidableEq

/-- Runs one invocation; queries (`#[ic_cdk::query]`) read the state and
leave it unchanged by construction. -/
def applyOp (op : Op) (s : State) : RustResult OpVal × State :=
  match op with
  | .addProduct p =>
    ((add_product p s).1.mapVal OpVal.farmerV, (add_product p s).2)
  | .productBid p =>
    ((product_bid p s).1.mapVal (fun _ => OpVal.unitV), (product_bid p s).2)
  | .acceptBid i =>
    ((accept_bid i s).1.mapVal (fun _ => OpVal.unitV), (accept_bid i s).2)
  | .markProductSold p =>
    ((mark_product_sold p s).1.mapVal (fun _ => OpVal.unitV),
      (mark_product_sold p s).2)
  | .disputeProduct i =>
    ((dispute_product i s).1.mapVal (fun _ => OpVal.unitV),
      (dispute_product i s).2)
  | .resolveDispute i b =>
    ((resolve_dispute i b s).1.mapVal (fun _ => OpVal.unitV),
      (resolve_dispute i b s).2)
  | .releasePayment i =>
    ((release_payment i s).1.mapVal (fun _ => OpVal.unitV),
      (release_payment i s).2)
  | .addToEscrow i amount =>
    ((add_to_escrow i amount s).1.mapVal (fun _ => OpVal.unitV),
      (add_to_escrow i amount s).2)
  | .withdrawFromEscrow p =>
    ((withdraw_from_escrow p s).1.mapVal (fun _ => OpVal.unitV),
      (withdraw_from_escrow p s).2)
  | .updateProductCategory i c =>
    ((update_product_category i c s).1.mapVal (fun _ => OpVal.unitV),
      (update_product_category i c s).2)
  | .updateProductDescription i b =>
    ((update_product_description i b s).1.mapVal (fun _ => OpVal.unitV),
      (update_product_description i b s).2)
  | .updateProductPrice i pr =>
    ((update_product_price i pr s).1.mapVal (fun _ => OpVal.unitV),
      (update_product_price i pr s).2)
  | .updateProductStatus i st =>
    ((update_product_status i st s).1.mapVal (fun _ => OpVal.unitV),
      (update_product_status i st s).2)
  | .rateFarmer i r =>
    ((rate_farmer i r s).1.mapVal (fun _ => OpVal.unitV), (rate_farmer i r s).2)
  | .getProductDescription i =>
    ((get_product_description i s).mapVal OpVal.strV, s)
  | .getProductPrice i => ((get_product_price i s).mapVal OpVal.natV, s)
  | .getProductStatus i => ((get_product_status i s).mapVal OpVal.strV, s)

/-! ## Concrete sample payloads and states used in witnesses -/

/-- A payload passing `add_product`'s validation. -/
def payloadGood : FarmerPayload :=
  { address := "seller1"
    name := "n"
    bio := "b"
    category := "c"
    price := 100
    product_status := "Listed" }

/-- The listing `add_product` builds from `payloadGood` under id `1`:
its escrow balance starts at `0`. -/
def farmerNew : Farmer := Farmer.fromPayload payloadGood 1

/-- A state holding the freshly created `farmerNew` under key `1`. -/
def stateNew : State :=
  { id_counter := 2
    farmers := Store.empty.insert 1 farmerNew
    products := Store.empty }

/-- A sold, undisputed listing with a pending escrow balance. -/
def farmerSold : Farmer :=
  { id := 1
    address := "seller1"
    name := "n"
    bio := "b"
    category := "c"
    price := 100
    escrow_balance := 40
    dispute_status := false
    rating := 0
    product_status := "Product Sold"
    consumer_address := some "alice"
    is_sold := true }

/-- A state holding `farmerSold` under key `1`. -/
def stateSold : State :=
  { id_counter := 2
    farmers := Store.empty.insert 1 farmerSold
    products := Store.empty }

/-- A state whose listing `1` already holds the maximal `u64` escrow
balance. -/
def stateMaxEscrow : State :=
  { id_counter := 2
    farmers := Store.empty.insert 1 { farmerSold with escrow_balance := U64LIMIT - 1 }
    products := Store.empty }

/-- A state whose id counter sits at the maximal `u64` value. -/
def stateCounterMax : State :=
  { id_counter := U64LIMIT - 1
    farmers := Store.empty
    products := Store.empty }

/-- A listing that already carries a bid from `"alice"`. -/
def farmerBid : Farmer :=
  { farmerNew with
    consumer_address := some "alice"
    product_status := "Bid Placed" }

/-- A state holding `farmerBid` under key `1`. -/
def stateBid : State :=
  { id_counter := 2
    farmers := Store.empty.insert 1 farmerBid
    products := Store.empty }

/-! ## Basic map lemmas -/

theorem Store.get_insert_self {α : Type} (m : Store α) (k : Nat) (v : α) :
    (m.insert k v).get k = some v := by
  simp [Store.get, Store.insert]

theorem Store.get_insert_ne {α : Type} (m : Store α) (k j : Nat) (v : α)
    (h : j ≠ k) : (m.insert k v).get j = m.get j := by
  simp [Store.get, Store.insert, h]

theorem Store.insert_insert {α : Type} (m : Store α) (k : Nat) (v w : α) :
    (m.insert k v).insert k w = m.insert k w := by
  funext j
  by_cases h : j = k <;> simp [Store.insert, h]

/-! ## Guard failures mutate nothing -/

theorem RustResult.mapVal_err {α : Type} (f : α → OpVal) (r : RustResult α)
    (e : String) (h : r.mapVal f = RustResult.err e) : r = RustResult.err e := by
  cases r with
  | ok a => simp [RustResult.mapVal] at h
  | err e2 => simpa [RustResult.mapVal] using h

theorem add_product_err_state (p : FarmerPayload) (s : State) (e : String)
    (h : (add_product p s).1 = RustResult.err e) : (add_product p s).2 = s := by
  by_cases hrej : p.rejected = true
  · simp [add_product, hrej]
  · simp [add_product, hrej] at h

theorem product_bid_err_state (p : ProductBidPayload) (s : State) (e : String)
    (h : (product_bid p s).1 = RustResult.err e) : (product_bid p s).2 = s := by
  by_cases hempty : p.consumer_address.isEmpty = true
  · simp [product_bid, hempty]
  · cases hget : s.farmers.get p.farmer_id with
    | none => simp [product_bid, hempty, hget]
    | some farmer =>
      cases hca : farmer.consumer_address with
      | none => simp [product_bid, hempty, hget, hca] at h
      | some a => simp [product_bid, hempty, hget, hca]

theorem accept_bid_err_state (i : Nat) (s : State) (e : String)
    (h : (accept_bid i s).1 = RustResult.err e) : (accept_bid i s).2 = s := by
  cases hget : s.farmers.get i with
  | none => simp [accept_bid, hget]
  | some farmer =>
    cases hca : farmer.consumer_address with
    | none => simp [accept_bid, hget, hca]
    | some a => simp [accept_bid, hget, hca] at h

theorem mark_product_sold_err_state (p : MarkProductSoldPayload) (s : State)
    (e : String) (h : (mark_product_sold p s).1 = RustResult.err e) :
    (mark_product_sold p s).2 = s := by
  cases hget : s.farmers.get p.farmer_id with
  | none => simp [mark_product_sold, hget]
  | some farmer =>
    cases hca : farmer.consumer_address with
    | none => simp [mark_product_sold, hget, hca]
    | some a => simp [mark_product_sold, hget, hca] at h

theorem dispute_product_err_state (i : Nat) (s : State) (e : String)
    (h : (dispute_product i s).1 = RustResult.err e) :
    (dispute_product i s).2 = s := by
  cases hget : s.farmers.get i with
  | none => simp [dispute_product, hget]
  | some farmer => simp [dispute_product, hget] at h

theorem resolve_dispute_err_state (i : Nat) (b : Bool) (s : State) (e : String)
    (h : (resolve_dispute i b s).1 = RustResult.err e) :
    (resolve_dispute i b s).2 = s := by
  cases hget : s.farmers.get i with
  | none => simp [resolve_dispute, hget]
  | some farmer =>
    cases hd : farmer.dispute_status with
    | false => simp [resolve_dispute, hget, hd]
    | true => simp [resolve_dispute, hget, hd] at h

theorem release_payment_err_state (i : Nat) (s : State) (e : String)
    (h : (release_payment i s).1 = RustResult.err e) :
    (release_payment i s).2 = s := by
  cases hget : s.farmers.get i with
  | none => simp [release_payment, hget]
  | some farmer =>
    cases hs : farmer.is_sold with
    | false => simp [release_payment, hget, hs]
    | true =>
      cases hd : farmer.dispute_status with
      | false => simp [release_payment, hget, hs, hd] at h
      | true => simp [release_payment, hget, hs, hd]

theorem add_to_escrow_err_state (i amount : Nat) (s : State) (e : String)
    (h : (add_to_escrow i amount s).1 = RustResult.err e) :
    (add_to_escrow i amount s).2 = s := by
  cases hget : s.farmers.get i with
  | none => simp [add_to_escrow, hget]
  | some farmer => simp [add_to_escrow, hget] at h

theorem withdraw_from_escrow_err_state (p : WithdrawFromEscrowPayload)
    (s : State) (e : String)
    (h : (withdraw_from_escrow p s).1 = RustResult.err e) :
    (withdraw_from_escrow p s).2 = s := by
  cases hget : s.farmers.get p.farmer_id with
  | none => simp [withdraw_from_escrow, hget]
  | some farmer =>
    by_cases hle : p.amount ≤ farmer.escrow_balance
    · simp [withdraw_from_escrow, hget, hle] at h
    · simp [withdraw_from_escrow, hget, hle]

theorem update_product_category_err_state (i : Nat) (c : String) (s : State)
    (e : String) (h : (update_product_category i c s).1 = RustResult.err e) :
    (update_product_category i c s).2 = s := by
  cases hget : s.farmers.get i with
  | none => simp [update_product_category, hget]
  | some farmer => simp [update_product_category, hget] at h

theorem update_product_description_err_state (i : Nat) (b : String) (s : State)
    (e : String) (h : (update_product_description i b s).1 = RustResult.err e) :
    (update_product_description i b s).2 = s := by
  cases hget : s.farmers.get i with
  | none => simp [update_product_description, hget]
  | some farmer => simp [update_product_description, hget] at h

theorem update_product_price_err_state (i pr : Nat) (s : State) (e : String)
    (h : (update_product_price i pr s).1 = RustResult.err e) :
    (update_product_price i pr s).2 = s := by
  cases hget : s.farmers.get i with
  | none => simp [update_product_price, hget]
  | some farmer => simp [update_product_price, hget] at h

theorem update_product_status_err_state (i : Nat) (st : String) (s : State)
    (e : String) (h : (update_product_status i st s).1 = RustResult.err e) :
    (update_product_status i st s).2 = s := by
  cases hget : s.farmers.get i with
  | none => simp [update_product_status, hget]
  | some farmer => simp [update_product_status, hget] at h

theorem rate_farmer_err_state (i r : Nat) (s : State) (e : String)
    (h : (rate_farmer i r s).1 = RustResult.err e) :
    (rate_farmer i r s).2 = s := by
  cases hget : s.farmers.get i with
  | none => simp [rate_farmer, hget]
  | some farmer => simp [rate_farmer, hget] at h

/-- C6: every operation is atomic with respect to guard failure — whenever a
canister method returns an error, the post-state (id counter, Listing Store
and Archive Store) is exactly the pre-state. -/
theorem op_error_leaves_state_unchanged (op : Op) (s : State) (e : String)
    (h : (applyOp op s).1 = RustResult.err e) : (applyOp op s).2 = s := by
  cases op with
  | addProduct p => exact add_product_err_state p s e (RustResult.mapVal_err _ _ e h)
  | productBid p => exact product_bid_err_state p s e (RustResult.mapVal_err _ _ e h)
  | acceptBid i => exact accept_bid_err_state i s e (RustResult.mapVal_err _ _ e h)
  | markProductSold p =>
    exact mark_product_sold_err_state p s e (RustResult.mapVal_err _ _ e h)
  | disputeProduct i =>
    exact dispute_product_err_state i s e (RustResult.mapVal_err _ _ e h)
  | resolveDispute i b =>
    exact resolve_dispute_err_state i b s e (RustResult.mapVal_err _ _ e h)
  | releasePayment i =>
    exact release_payment_err_state i s e (RustResult.mapVal_err _ _ e h)
  | addToEscrow i amount =>
    exact add_to_escrow_err_state i amount s e (RustResult.mapVal_err _ _ e h)
  | withdrawFromEscrow p =>
    exact withdraw_from_escrow_err_state p s e (RustResult.mapVal_err _ _ e h)
  | updateProductCategory i c =>
    exact update_product_category_err_state i c s e (RustResult.mapVal_err _ _ e h)
  | updateProductDescription i b =>
    exact update_product_description_err_state i b s e (RustResult.mapVal_err _ _ e h)
  | updateProductPrice i pr =>
    exact update_product_price_err_state i pr s e (RustResult.mapVal_err _ _ e h)
  | updateProductStatus i st =>
    exact update_product_status_err_state i st s e (RustResult.mapVal_err _ _ e h)
  | rateFarmer i r => exact rate_farmer_err_state i r s e (RustResult.mapVal_err _ _ e h)
  | getProductDescription i => rfl
  | getProductPrice i => rfl
  | getProductStatus i => rfl

/-- Witness for C6: `accept_bid` on an unknown id fails with `NotFound` and
leaves the fresh state untouched. -/
theorem op_error_leaves_state_unchanged_witness :
    (applyOp (Op.acceptBid 5) State.fresh).1 = RustResult.err "Farmer not found"
      ∧ (applyOp (Op.acceptBid 5) State.fresh).2 = State.fresh :=
  ⟨by decide,
    op_error_leaves_state_unchanged (Op.acceptBid 5) State.fresh
      "Farmer not found" (by decide)⟩

/-! ## `release_payment`: guard, effect, and re-archiving -/

/-- C2: for an existing listing, `release_payment` succeeds iff
`is_sold && !dispute_status`; on success it zeroes the escrow balance and
archives `{ id, farmer_address := address }` under the listing's id; when
the guard fails it returns the error and the state is unchanged. -/
theorem release_payment_spec (s : State) (farmer_id : Nat) (farmer : Farmer)
    (hget : s.farmers.get farmer_id = some farmer) :
    (((release_payment farmer_id s).1 = RustResult.ok ()) ↔
        (farmer.is_sold = true ∧ farmer.dispute_status = false))
    ∧ (farmer.is_sold = true → farmer.dispute_status = false →
        release_payment farmer_id s =
          (RustResult.ok (),
            { s with
              products := s.products.insert farmer.id
                { id := farmer.id, farmer_address := farmer.address }
              farmers := s.farmers.insert farmer_id
                { farmer with escrow_balance := 0 } }))
    ∧ (¬ (farmer.is_sold = true ∧ farmer.dispute_status = false) →
        release_payment farmer_id s =
          (RustResult.err "Product is not sold or has an unresolved dispute",
            s)) := by
  cases hs : farmer.is_sold with
  | true =>
    cases hd : farmer.dispute_status with
    | false => simp [release_payment, hget, hs, hd]
    | true => simp [release_payment, hget, hs, hd]
  | false =>
    cases hd : farmer.dispute_status <;> simp [release_payment, hget, hs, hd]

/-- Witness for C2 at the concrete sold listing `farmerSold`. -/
theorem release_payment_spec_witness :
    stateSold.farmers.get 1 = some farmerSold
    ∧ ((((release_payment 1 stateSold).1 = RustResult.ok ()) ↔
          (farmerSold.is_sold = true ∧ farmerSold.dispute_status = false))
      ∧ (farmerSold.is_sold = true → farmerSold.dispute_status = false →
          release_payment 1 stateSold =
            (RustResult.ok (),
              { stateSold with
                products := stateSold.products.insert farmerSold.id
                  { id := farmerSold.id, farmer_address := farmerSold.address }
                farmers := stateSold.farmers.insert 1
                  { farmerSold with escrow_balance := 0 } }))
      ∧ (¬ (farmerSold.is_sold = true ∧ farmerSold.dispute_status = false) →
          release_payment 1 stateSold =
            (RustResult.err "Product is not sold or has an unresolved dispute",
              stateSold))) :=
  ⟨by decide, release_payment_spec stateSold 1 farmerSold (by decide)⟩

/-- Counterexample for C3: on a sold, undisputed listing `release_payment`
succeeds, and on the resulting state `release_payment` for the same id
succeeds *again* — the code has no "already archived" guard, so the archive
insert is performed a second time. -/
theorem release_payment_can_rearchive :
    (release_payment 1 stateSold).1 = RustResult.ok ()
      ∧ (release_payment 1 (release_payment 1 stateSold).2).1
          = RustResult.ok () := by
  constructor
  · decide
  · decide

/-- C3 (amended): re-archiving is possible but is a no-op — after one
successful `release_payment`, a second call on the same id succeeds and
rewrites the identical record at the identical key, leaving both stores
exactly as after the first call; since the maps are keyed by id, the
Archive Store never holds more than one record per id. -/
theorem release_payment_rearchive_is_noop (farmer_id : Nat) (s : State)
    (h : (release_payment farmer_id s).1 = RustResult.ok ()) :
    release_payment farmer_id ((release_payment farmer_id s).2)
      = (RustResult.ok (), (release_payment farmer_id s).2) := by
  cases hget : s.farmers.get farmer_id with
  | none => simp [release_payment, hget] at h
  | some farmer =>
    cases hs : farmer.is_sold with
    | false => simp [release_payment, hget, hs] at h
    | true =>
      cases hd : farmer.dispute_status with
      | true => simp [release_payment, hget, hs, hd] at h
      | false =>
        have hrel : (release_payment farmer_id s).2 =
            { s with
              products := s.products.insert farmer.id
                { id := farmer.id, farmer_address := farmer.address }
              farmers := s.farmers.insert farmer_id
                { farmer with escrow_balance := 0 } } := by
          simp [release_payment, hget, hs, hd]
        rw [hrel]
        simp [release_payment, Store.get_insert_self, hs, hd,
          Store.insert_insert]

/-- Witness for the amended C3 at the concrete sold listing. -/
theorem release_payment_rearchive_is_noop_witness :
    (release_payment 1 stateSold).1 = RustResult.ok ()
      ∧ release_payment 1 ((release_payment 1 stateSold).2)
          = (RustResult.ok (), (release_payment 1 stateSold).2) :=
  ⟨by decide, release_payment_rearchive_is_noop 1 stateSold (by decide)⟩

/-! ## The escrow balance invariant -/

theorem escrow_add_step (farmer_id amount : Nat) (s : State) :
    escrowBalanceAt farmer_id (add_to_escrow farmer_id amount s).2
      ≤ escrowBalanceAt farmer_id s
        + (if (add_to_escrow farmer_id amount s).1 = RustResult.ok ()
            then amount else 0) := by
  cases hget : s.farmers.get farmer_id with
  | none => simp [add_to_escrow, hget, escrowBalanceAt]
  | some farmer =>
    simp [add_to_escrow, hget, escrowBalanceAt, Store.get_insert_self]
    exact Nat.mod_le _ _

theorem escrow_withdraw_step (farmer_id amount : Nat) (s : State) :
    escrowBalanceAt farmer_id (withdraw_from_escrow ⟨farmer_id, amount⟩ s).2
      ≤ escrowBalanceAt farmer_id s := by
  cases hget : s.farmers.get farmer_id with
  | none => simp [withdraw_from_escrow, hget]
  | some farmer =>
    by_cases hle : amount ≤ farmer.escrow_balance
    · simp [withdraw_from_escrow, hget, hle, escrowBalanceAt,
        Store.get_insert_self]
    · simp [withdraw_from_escrow, hget, hle]

theorem escrow_run_bound (ops : List EscrowOp) (farmer_id : Nat) (s : State) :
    escrowBalanceAt farmer_id (runEscrowOps farmer_id ops s)
      ≤ escrowBalanceAt farmer_id s + okAddSum farmer_id ops s := by
  induction ops generalizing s with
  | nil => simp [runEscrowOps, okAddSum]
  | cons op rest ih =>
    cases op with
    | add amount =>
      have hstep := escrow_add_step farmer_id amount s
      have ih2 := ih ((add_to_escrow farmer_id amount s).2)
      simp only [runEscrowOps, okAddSum, applyEscrowOp] at *
      omega
    | withdraw amount =>
      have hstep := escrow_withdraw_step farmer_id amount s
      have ih2 := ih ((withdraw_from_escrow ⟨farmer_id, amount⟩ s).2)
      simp only [runEscrowOps, okAddSum, applyEscrowOp] at *
      omega

/-- C1: starting from a listing whose escrow balance is `0`, any sequence of
`add_to_escrow` / `withdraw_from_escrow` calls keeps the balance within
`[0, sum of the amounts of the successful add calls]` (nonnegativity is by
construction: the balance is a `Nat`, mirroring `u64`); moreover
`withdraw_from_escrow` succeeds exactly when the current balance is at least
the requested amount, and on success subtracts exactly that amount. -/
theorem escrow_balance_bounded_by_successful_adds (s : State) (farmer_id : Nat)
    (farmer : Farmer) (hget : s.farmers.get farmer_id = some farmer)
    (hzero : farmer.escrow_balance = 0) :
    (∀ ops : List EscrowOp,
        escrowBalanceAt farmer_id (runEscrowOps farmer_id ops s)
          ≤ okAddSum farmer_id ops s)
    ∧ (∀ (s2 : State) (f2 : Farmer) (amount : Nat),
        s2.farmers.get farmer_id = some f2 →
        (((withdraw_from_escrow ⟨farmer_id, amount⟩ s2).1 = RustResult.ok ())
            ↔ amount ≤ f2.escrow_balance)
          ∧ (amount ≤ f2.escrow_balance →
              escrowBalanceAt farmer_id
                  (withdraw_from_escrow ⟨farmer_id, amount⟩ s2).2
                = f2.escrow_balance - amount)) := by
  constructor
  · intro ops
    have h := escrow_run_bound ops farmer_id s
    have hbal : escrowBalanceAt farmer_id s = 0 := by
      simp [escrowBalanceAt, hget, hzero]
    omega
  · intro s2 f2 amount hget2
    constructor
    · constructor
      · intro hok
        by_cases hle : amount ≤ f2.escrow_balance
        · exact hle
        · simp [withdraw_from_escrow, hget2, hle] at hok
      · intro hle
        simp [withdraw_from_escrow, hget2, hle]
    · intro hle
      simp [withdraw_from_escrow, hget2, hle, escrowBalanceAt,
        Store.get_insert_self]

/-- Witness for C1 at the concrete fresh listing `farmerNew`. -/
theorem escrow_balance_bounded_by_successful_adds_witness :
    (stateNew.farmers.get 1 = some farmerNew ∧ farmerNew.escrow_balance = 0)
    ∧ ((∀ ops : List EscrowOp,
          escrowBalanceAt 1 (runEscrowOps 1 ops stateNew)
            ≤ okAddSum 1 ops stateNew)
      ∧ (∀ (s2 : State) (f2 : Farmer) (amount : Nat),
          s2.farmers.get 1 = some f2 →
          (((withdraw_from_escrow ⟨1, amount⟩ s2).1 = RustResult.ok ())
              ↔ amount ≤ f2.escrow_balance)
            ∧ (amount ≤ f2.escrow_balance →
                escrowBalanceAt 1 (withdraw_from_escrow ⟨1, amount⟩ s2).2
                  = f2.escrow_balance - amount))) :=
  ⟨⟨by decide, by decide⟩,
    escrow_balance_bounded_by_successful_adds stateNew 1 farmerNew
      (by decide) (by decide)⟩

/-! ## Unchecked additions: overflow wraps instead of failing -/

/-- C4 evidence: both overflow-prone additions are *unchecked*.  With the
escrow balance at `2^64 - 1`, `add_to_escrow(1)` returns `Ok` and the
balance silently wraps to `0`; with the id counter at `2^64 - 1`,
`add_product` still succeeds and the counter silently wraps to `0` (so the
next allocation would reuse id `0`).  Neither site reports an overflow
error, contradicting the claimed checked arithmetic. -/
theorem unchecked_additions_wrap :
    (add_to_escrow 1 1 stateMaxEscrow).1 = RustResult.ok ()
    ∧ escrowBalanceAt 1 (add_to_escrow 1 1 stateMaxEscrow).2 = 0
    ∧ (add_product payloadGood stateCounterMax).1
        = RustResult.ok (Farmer.fromPayload payloadGood (U64LIMIT - 1))
    ∧ (add_product payloadGood stateCounterMax).2.id_counter = 0 :=
  ⟨by decide, by decide, by decide, by decide⟩

/-! ## The identifier allocator -/

/-- Counterexample for C5: the very first successful `add_product` on a
fresh canister issues id `0`, not `1` — `Cell::set` returns the previous
counter value, and the counter starts at `0`. -/
theorem first_issued_id_is_zero_not_one :
    (add_product payloadGood State.fresh).1
      = RustResult.ok (Farmer.fromPayload payloadGood 0)
    ∧ (Farmer.fromPayload payloadGood 0).id = 0
    ∧ issuedIds [payloadGood] State.fresh = [0]
    ∧ issuedIds [payloadGood] State.fresh ≠ [1] :=
  ⟨by decide, by decide, by decide, by decide⟩

theorem Farmer.fromPayload_id (p : FarmerPayload) (i : Nat) :
    (Farmer.fromPayload p i).id = i := rfl

theorem issuedIds_length (ps : List FarmerPayload) (s : State) :
    (issuedIds ps s).length = okAllocCount ps := by
  induction ps generalizing s with
  | nil => simp [issuedIds, okAllocCount]
  | cons p rest ih =>
    cases hrej : p.rejected with
    | true =>
      have h1 : add_product p s
          = (RustResult.err "All fields must be provided and non-empty", s) := by
        simp [add_product, hrej]
      simp [issuedIds, h1, okAllocCount, List.filter_cons, hrej, ih]
    | false =>
      have h1 : add_product p s =
          (RustResult.ok (Farmer.fromPayload p s.id_counter),
            { s with
              id_counter := (s.id_counter + 1) % U64LIMIT
              farmers := s.farmers.insert s.id_counter
                (Farmer.fromPayload p s.id_counter) }) := by
        simp [add_product, hrej]
      simp [issuedIds, h1, okAllocCount, List.filter_cons, hrej, ih]

theorem issuedIds_eq_range (ps : List FarmerPayload) (s : State)
    (hbound : s.id_counter + okAllocCount ps ≤ U64LIMIT) :
    issuedIds ps s = List.range' s.id_counter (okAllocCount ps) := by
  induction ps generalizing s with
  | nil => simp [issuedIds, okAllocCount]
  | cons p rest ih =>
    cases hrej : p.rejected with
    | true =>
      have h1 : add_product p s
          = (RustResult.err "All fields must be provided and non-empty", s) := by
        simp [add_product, hrej]
      have hcnt : okAllocCount (p :: rest) = okAllocCount rest := by
        simp [okAllocCount, List.filter_cons, hrej]
      rw [hcnt] at hbound ⊢
      simpa [issuedIds, h1] using ih s hbound
    | false =>
      have h1 : add_product p s =
          (RustResult.ok (Farmer.fromPayload p s.id_counter),
            { s with
              id_counter := (s.id_counter + 1) % U64LIMIT
              farmers := s.farmers.insert s.id_counter
                (Farmer.fromPayload p s.id_counter) }) := by
        simp [add_product, hrej]
      have hcnt : okAllocCount (p :: rest) = okAllocCount rest + 1 := by
        simp [okAllocCount, List.filter_cons, hrej]
      by_cases hz : okAllocCount rest = 0
      · have hnil : issuedIds rest (add_product p s).2 = [] := by
          have hlen := issuedIds_length rest (add_product p s).2
          rw [hz] at hlen
          exact List.eq_nil_of_length_eq_zero hlen
        rw [h1] at hnil
        rw [hcnt, hz]
        simp [issuedIds, h1, List.range', Farmer.fromPayload_id]
        simpa using hnil
      · have hlt : s.id_counter + 1 < U64LIMIT := by
          rw [hcnt] at hbound
          omega
        have hmod : (s.id_counter + 1) % U64LIMIT = s.id_counter + 1 :=
          Nat.mod_eq_of_lt hlt
        have hbound2 : (s.id_counter + 1) + okAllocCount rest ≤ U64LIMIT := by
          rw [hcnt] at hbound
          omega
        have ihs := ih ((add_product p s).2)
        rw [h1] at ihs
        simp only [hmod] at ihs
        have ihr := ihs (by simpa using hbound2)
        rw [hcnt]
        simp [issuedIds, h1, List.range', hmod, Farmer.fromPayload_id]
        simpa using ihr

/-- C5 (amended): on a fresh canister, as long as at most `2^64` successful
allocations occur (so the `u64` counter cannot wrap), every successful
`add_product` issues an id strictly greater than every previously issued
id, and the first id ever issued is `0`. -/
theorem issued_ids_strictly_increasing (ps : List FarmerPayload)
    (hbound : okAllocCount ps ≤ U64LIMIT) :
    List.Pairwise (· < ·) (issuedIds ps State.fresh)
    ∧ (0 < okAllocCount ps →
        (issuedIds ps State.fresh).head? = some 0) := by
  have hzero : State.fresh.id_counter = 0 := rfl
  have h := issuedIds_eq_range ps State.fresh (by rw [hzero]; omega)
  rw [h, hzero]
  constructor
  · exact List.pairwise_lt_range' ..
  · intro hpos
    cases hcnt : okAllocCount ps with
    | zero => omega
    | succ n => simp [List.range']

/-- Witness for the amended C5: two successful allocations on a fresh
canister issue `[0, 1]`. -/
theorem issued_ids_strictly_increasing_witness :
    okAllocCount [payloadGood, payloadGood] ≤ U64LIMIT
    ∧ (List.Pairwise (· < ·)
          (issuedIds [payloadGood, payloadGood] State.fresh)
      ∧ (0 < okAllocCount [payloadGood, payloadGood] →
          (issuedIds [payloadGood, payloadGood] State.fresh).head? = some 0)) :=
  ⟨by decide,
    issued_ids_strictly_increasing [payloadGood, payloadGood] (by decide)⟩

/-! ## `product_bid` on an already-bid listing -/

/-- Counterexample for C7: on a listing whose consumer address is already
set, a second `product_bid` with the *empty* consumer address does not
return the `AlreadyBidOn` error — payload validation runs first and returns
its own error instead. -/
theorem product_bid_empty_address_not_already_bid :
    consumerAddressAt 1 stateBid = some "alice"
    ∧ (product_bid ⟨1, ""⟩ stateBid).1
        = RustResult.err "Consumer address must be provided and non-empty"
    ∧ (product_bid ⟨1, ""⟩ stateBid).1
        ≠ RustResult.err "Product already has a bid placed" :=
  ⟨by decide, by decide, by decide⟩

/-- C7 (amended): on a listing whose consumer address is already set, a
second `product_bid` leaves the state (hence the stored consumer address)
unchanged, and returns `AlreadyBidOn` for every *non-empty* consumer
address; for the empty address it returns the payload-validation error
instead. -/
theorem product_bid_second_bid_refused (s : State) (p : ProductBidPayload)
    (farmer : Farmer) (a0 : String)
    (hget : s.farmers.get p.farmer_id = some farmer)
    (hbid : farmer.consumer_address = some a0) :
    (product_bid p s).2 = s
    ∧ (p.consumer_address.isEmpty = false →
        (product_bid p s).1 = RustResult.err "Product already has a bid placed")
    ∧ (p.consumer_address.isEmpty = true →
        (product_bid p s).1
          = RustResult.err "Consumer address must be provided and non-empty")
    ∧ consumerAddressAt p.farmer_id ((product_bid p s).2) = some a0 := by
  cases hempty : p.consumer_address.isEmpty with
  | true => simp [product_bid, hempty, consumerAddressAt, hget, hbid]
  | false => simp [product_bid, hempty, consumerAddressAt, hget, hbid]

/-- Witness for the amended C7: a second bid from `"bob"` on `stateBid`. -/
theorem product_bid_second_bid_refused_witness :
    (stateBid.farmers.get 1 = some farmerBid
      ∧ farmerBid.consumer_address = some "alice")
    ∧ ((product_bid ⟨1, "bob"⟩ stateBid).2 = stateBid
      ∧ (("bob" : String).isEmpty = false →
          (product_bid ⟨1, "bob"⟩ stateBid).1
            = RustResult.err "Product already has a bid placed")
      ∧ (("bob" : String).isEmpty = true →
          (product_bid ⟨1, "bob"⟩ stateBid).1
            = RustResult.err "Consumer address must be provided and non-empty")
      ∧ consumerAddressAt 1 ((product_bid ⟨1, "bob"⟩ stateBid).2)
          = some "alice") :=
  ⟨⟨by decide, by decide⟩,
    product_bid_second_bid_refused stateBid ⟨1, "bob"⟩ farmerBid "alice"
      (by decide) (by decide)⟩

/-! ## Operations addressed to a never-allocated id -/

/-- Counterexample for C8: `product_bid` addressed to the unknown id
`999999` with an empty consumer address returns the payload-validation
error, not `NotFound` — so `NotFound` is not uniform over all arguments. -/
theorem unknown_id_bid_validation_precedes_not_found :
    State.fresh.farmers.get 999999 = none
    ∧ (product_bid ⟨999999, ""⟩ State.fresh).1
        = RustResult.err "Consumer address must be provided and non-empty"
    ∧ (product_bid ⟨999999, ""⟩ State.fresh).1
        ≠ RustResult.err "Farmer not found" :=
  ⟨by decide, by decide, by decide⟩

/-- C8 (amended): every operation addressed to an id with no listing
returns the `NotFound` error (`"Farmer not found"`), with one exception:
`product_bid` with an empty consumer address fails payload validation
before the lookup and returns that error instead. -/
theorem unknown_id_returns_not_found (s : State) (farmer_id : Nat)
    (hget : s.farmers.get farmer_id = none) :
    get_product_description farmer_id s = RustResult.err "Farmer not found"
    ∧ get_product_price farmer_id s = RustResult.err "Farmer not found"
    ∧ get_product_status farmer_id s = RustResult.err "Farmer not found"
    ∧ (∀ ca : String, ca.isEmpty = false →
        (product_bid ⟨farmer_id, ca⟩ s).1 = RustResult.err "Farmer not found")
    ∧ (accept_bid farmer_id s).1 = RustResult.err "Farmer not found"
    ∧ (∀ ca : String,
        (mark_product_sold ⟨farmer_id, ca⟩ s).1
          = RustResult.err "Farmer not found")
    ∧ (dispute_product farmer_id s).1 = RustResult.err "Farmer not found"
    ∧ (∀ b : Bool,
        (resolve_dispute farmer_id b s).1 = RustResult.err "Farmer not found")
    ∧ (release_payment farmer_id s).1 = RustResult.err "Farmer not found"
    ∧ (∀ amount : Nat,
        (add_to_escrow farmer_id amount s).1
          = RustResult.err "Farmer not found")
    ∧ (∀ amount : Nat,
        (withdraw_from_escrow ⟨farmer_id, amount⟩ s).1
          = RustResult.err "Farmer not found")
    ∧ (∀ c : String,
        (update_product_category farmer_id c s).1
          = RustResult.err "Farmer not found")
    ∧ (∀ b : String,
        (update_product_description farmer_id b s).1
          = RustResult.err "Farmer not found")
    ∧ (∀ pr : Nat,
        (update_product_price farmer_id pr s).1
          = RustResult.err "Farmer not found")
    ∧ (∀ st : String,
        (update_product_status farmer_id st s).1
          = RustResult.err "Farmer not found")
    ∧ (∀ r : Nat,
        (rate_farmer farmer_id r s).1 = RustResult.err "Farmer not found") := by
  refine ⟨?_, ?_, ?_, ?_, ?_, ?_, ?_, ?_, ?_, ?_, ?_, ?_, ?_, ?_, ?_, ?_⟩
  · simp [get_product_description, hget]
  · simp [get_product_price, hget]
  · simp [get_product_status, hget]
  · intro ca hca
    simp [product_bid, hca, hget]
  · simp [accept_bid, hget]
  · intro ca
    simp [mark_product_sold, hget]
  · simp [dispute_product, hget]
  · intro b
    simp [resolve_dispute, hget]
  · simp [release_payment, hget]
  · intro amount
    simp [add_to_escrow, hget]
  · intro amount
    simp [withdraw_from_escrow, hget]
  · intro c
    simp [update_product_category, hget]
  · intro b
    simp [update_product_description, hget]
  · intro pr
    simp [update_product_price, hget]
  · intro st
    simp [update_product_status, hget]
  · intro r
    simp [rate_farmer, hget]

/-- Witness for the amended C8 at the never-allocated id `999999` on a
fresh canister. -/
theorem unknown_id_returns_not_found_witness :
    State.fresh.farmers.get 999999 = none
    ∧ (get_product_description 999999 State.fresh
          = RustResult.err "Farmer not found"
      ∧ get_product_price 999999 State.fresh = RustResult.err "Farmer not found"
      ∧ get_product_status 999999 State.fresh = RustResult.err "Farmer not found"
      ∧ (∀ ca : String, ca.isEmpty = false →
          (product_bid ⟨999999, ca⟩ State.fresh).1
            = RustResult.err "Farmer not found")
      ∧ (accept_bid 999999 State.fresh).1 = RustResult.err "Farmer not found"
      ∧ (∀ ca : String,
          (mark_product_sold ⟨999999, ca⟩ State.fresh).1
            = RustResult.err "Farmer not found")
      ∧ (dispute_product 999999 State.fresh).1
          = RustResult.err "Farmer not found"
      ∧ (∀ b : Bool,
          (resolve_dispute 999999 b State.fresh).1
            = RustResult.err "Farmer not found")
      ∧ (release_payment 999999 State.fresh).1
          = RustResult.err "Farmer not found"
      ∧ (∀ amount : Nat,
          (add_to_escrow 999999 amount State.fresh).1
            = RustResult.err "Farmer not found")
      ∧ (∀ amount : Nat,
          (withdraw_from_escrow ⟨999999, amount⟩ State.fresh).1
            = RustResult.err "Farmer not found")
      ∧ (∀ c : String,
          (update_product_category 999999 c State.fresh).1
            = RustResult.err "Farmer not found")
      ∧ (∀ b : String,
          (update_product_description 999999 b State.fresh).1
            = RustResult.err "Farmer not found")
      ∧ (∀ pr : Nat,
          (update_product_price 999999 pr State.fresh).1
            = RustResult.err "Farmer not found")
      ∧ (∀ st : String,
          (update_product_status 999999 st State.fresh).1
            = RustResult.err "Farmer not found")
      ∧ (∀ r : Nat,
          (rate_farmer 999999 r State.fresh).1
            = RustResult.err "Farmer not found")) :=
  ⟨by decide, unknown_id_returns_not_found State.fresh 999999 (by decide)⟩

/-! ## `add_product` validation and initialization -/

/-- Counterexample for C9: `add_product` does have a guard — a payload with
an empty `address` is rejected with an error, refuting "never returns an
error". -/
theorem add_product_rejects_empty_address :
    add_product { payloadGood with address := "" } State.fresh
      = (RustResult.err "All fields must be provided and non-empty",
          State.fresh) := rfl

/-- C9 (amended): `add_product` returns an error (leaving the state
unchanged) exactly when one of the five text fields of the payload is
empty; for every other payload it allocates the current counter value as a
fresh id and stores a listing initialized with `escrow_balance = 0`,
`dispute_status = false`, `is_sold = false` and `consumer_address` absent. -/
theorem add_product_spec (payload : FarmerPayload) (s : State) :
    (payload.rejected = true →
      add_product payload s
        = (RustResult.err "All fields must be provided and non-empty", s))
    ∧ (payload.rejected = false →
        (add_product payload s).1
            = RustResult.ok (Farmer.fromPayload payload s.id_counter)
          ∧ (add_product payload s).2.farmers.get s.id_counter
              = some (Farmer.fromPayload payload s.id_counter)
          ∧ (add_product payload s).2.id_counter
              = (s.id_counter + 1) % U64LIMIT
          ∧ (add_product payload s).2.products = s.products
          ∧ (Farmer.fromPayload payload s.id_counter).id = s.id_counter
          ∧ (Farmer.fromPayload payload s.id_counter).escrow_balance = 0
          ∧ (Farmer.fromPayload payload s.id_counter).dispute_status = false
          ∧ (Farmer.fromPayload payload s.id_counter).is_sold = false
          ∧ (Farmer.fromPayload payload s.id_counter).consumer_address
              = none) := by
  constructor
  · intro hrej
    simp [add_product, hrej]
  · intro hrej
    simp [add_product, hrej, Store.get_insert_self, Farmer.fromPayload]

/-- Witness for the amended C9: `payloadGood` passes validation and is
stored fully initialized. -/
theorem add_product_spec_witness :
    payloadGood.rejected = false
    ∧ ((add_product payloadGood State.fresh).1
          = RustResult.ok (Farmer.fromPayload payloadGood State.fresh.id_counter)
      ∧ (add_product payloadGood State.fresh).2.farmers.get
            State.fresh.id_counter
          = some (Farmer.fromPayload payloadGood State.fresh.id_counter)
      ∧ (add_product payloadGood State.fresh).2.id_counter
          = (State.fresh.id_counter + 1) % U64LIMIT
      ∧ (add_product payloadGood State.fresh).2.products = State.fresh.products
      ∧ (Farmer.fromPayload payloadGood State.fresh.id_counter).id
          = State.fresh.id_counter
      ∧ (Farmer.fromPayload payloadGood State.fresh.id_counter).escrow_balance
          = 0
      ∧ (Farmer.fromPayload payloadGood State.fresh.id_counter).dispute_status
          = false
      ∧ (Farmer.fromPayload payloadGood State.fresh.id_counter).is_sold = false
      ∧ (Farmer.fromPayload payloadGood State.fresh.id_counter).consumer_address
          = none) :=
  ⟨by decide, (add_product_spec payloadGood State.fresh).2 (by decide)⟩

/-! ## `mark_product_sold` ignores its payload's consumer address -/

/-- C10: `mark_product_sold` never reads the `consumer_address` field of its
payload — two payloads differing only there produce identical results and
identical post-states — and the stored consumer address is never
overwritten by this operation (only the *stored* address decides the
guard). -/
theorem mark_product_sold_ignores_payload_address (s : State)
    (farmer_id : Nat) (a1 a2 : String) :
    mark_product_sold ⟨farmer_id, a1⟩ s = mark_product_sold ⟨farmer_id, a2⟩ s
    ∧ consumerAddressAt farmer_id ((mark_product_sold ⟨farmer_id, a1⟩ s).2)
        = consumerAddressAt farmer_id s := by
  constructor
  · rfl
  · cases hget : s.farmers.get farmer_id with
    | none => simp [mark_product_sold, hget]
    | some farmer =>
      cases hca : farmer.consumer_address with
      | none => simp [mark_product_sold, hget, hca]
      | some a0 =>
        simp [mark_product_sold, hget, hca, consumerAddressAt,
          Store.get_insert_self]
